import Mathlib

/-!
Shallow embedding of `src/services/stylus-verifier/src/lib.rs` (the CertID
Hardware Attestation Verifier, an Arbitrum Stylus contract), together with
theorems settling the specification claims about it.

Modelling conventions:
* `U256` values are natural numbers; the only place the 256-bit width is
  observable in the source is the counter increment
  `self.total_verifications.set(current_count + U256::from(1))`, whose
  `alloy_primitives::U256` addition wraps modulo `2 ^ 256` in a release
  (on-chain) build, so the increment is modelled as `(c + 1) % 2 ^ 256`.
* `FixedBytes<32>` device ids and 20-byte addresses are modelled as naturals;
  none of the claims depends on their width.  The zero address is `0`.
* Stylus `StorageMap`s return the zero value for absent keys, so each map is a
  total function initialised to `fun _ => 0` in the genesis state.
* Every public method of a Stylus contract can in principle revert, so each
  method is given the type `Except VerifierError (CertIDVerifier × ρ)`; the
  pilot source never reverts, hence every body returns `Except.ok`.  The
  caller (`msg::sender`) is passed to the mutating methods as an explicit
  first argument; the source never reads it.
-/

/-- Error vocabulary of the specification (section 7 of the design document).
The pilot source never raises any of these; the type exists so that the
claims about abort behaviour can be stated. -/
inductive VerifierError where
  | Unauthorized
  | InvalidScore
  | MalformedAttestation
  | ReplayRejected
deriving DecidableEq, Repr

/-- Device identifiers are `FixedBytes<32>` in the source. -/
abbrev DeviceId := Nat

/-- Account addresses; `0` is the zero address returned for absent keys. -/
abbrev Address := Nat

/-- Unsigned 256-bit integers; wrap is modelled explicitly where the source
can overflow (the verification counter). -/
abbrev U256 := Nat

/-- Storage of the `CertIDVerifier` contract: two `StorageMap`s (total
functions, zero-default like Stylus storage) and one `StorageU256` scalar. -/
structure CertIDVerifier where
  device_trust_scores : DeviceId → U256
  device_owners : DeviceId → Address
  total_verifications : U256

/-- Genesis state: all storage slots are zero. -/
def initialState : CertIDVerifier :=
  { device_trust_scores := fun _ => 0
    device_owners := fun _ => 0
    total_verifications := 0 }

/-- `pub fn register_device(&mut self, device_id, owner)`: unconditionally
`self.device_owners.setter(device_id).set(owner)`.  The source performs no
authorization check and never reverts; the caller argument is unread. -/
def register_device (_caller : Address) (s : CertIDVerifier) (device_id : DeviceId)
    (owner : Address) : Except VerifierError (CertIDVerifier × Unit) :=
  Except.ok
    ({ s with device_owners := fun x => if x = device_id then owner else s.device_owners x }, ())

/-- `pub fn update_trust_score(&mut self, device_id, new_score)`:
unconditionally `self.device_trust_scores.setter(device_id).set(new_score)`.
No authorization check, no range check, never reverts. -/
def update_trust_score (_caller : Address) (s : CertIDVerifier) (device_id : DeviceId)
    (new_score : U256) : Except VerifierError (CertIDVerifier × Unit) :=
  Except.ok
    ({ s with
        device_trust_scores := fun x => if x = device_id then new_score else s.device_trust_scores x },
      ())

/-- `pub fn verify_tee_attestation(&mut self, device_id, _attestation_data)`:
fetches the trust score; if `score > U256::ZERO` it increments
`total_verifications` and returns `true`, otherwise it returns `false`.
The attestation payload parameter `_attestation_data` is never read, and the
function never reverts. -/
def verify_tee_attestation (_caller : Address) (s : CertIDVerifier) (device_id : DeviceId)
    (_attestation_data : List Nat) : Except VerifierError (CertIDVerifier × Bool) :=
  let score := s.device_trust_scores device_id
  if score > 0 then
    Except.ok
      ({ s with total_verifications := (s.total_verifications + 1) % 2 ^ 256 }, true)
  else
    Except.ok (s, false)

/-- `pub fn get_device_trust(&self, device_id)`: pure view read of the score
map (`&self`, so it cannot mutate storage). -/
def get_device_trust (s : CertIDVerifier) (device_id : DeviceId) : U256 :=
  s.device_trust_scores device_id

/-- `pub fn get_device_owner(&self, device_id)`: pure view read of the owner
map. -/
def get_device_owner (s : CertIDVerifier) (device_id : DeviceId) : Address :=
  s.device_owners device_id

/-- `pub fn get_total_verifications(&self)`: pure view read of the counter. -/
def get_total_verifications (s : CertIDVerifier) : U256 :=
  s.total_verifications

/-- One external call to the contract: the three mutating entry points (with
their caller) and the three view entry points. -/
inductive Call where
  | register (caller : Address) (device_id : DeviceId) (owner : Address)
  | update (caller : Address) (device_id : DeviceId) (new_score : U256)
  | verify (caller : Address) (device_id : DeviceId) (payload : List Nat)
  | getTrust (device_id : DeviceId)
  | getOwner (device_id : DeviceId)
  | getTotal

/-- State transition of one external call: on a revert (`Except.error`) the
execution environment rolls every write back, so the state is unchanged;
view calls never touch storage. -/
def stepState (s : CertIDVerifier) : Call → CertIDVerifier
  | Call.register caller d o =>
      match register_device caller s d o with
      | Except.ok (s', _) => s'
      | Except.error _ => s
  | Call.update caller d v =>
      match update_trust_score caller s d v with
      | Except.ok (s', _) => s'
      | Except.error _ => s
  | Call.verify caller d p =>
      match verify_tee_attestation caller s d p with
      | Except.ok (s', _) => s'
      | Except.error _ => s
  | Call.getTrust _ => s
  | Call.getOwner _ => s
  | Call.getTotal => s

/-- Run a sequence of external calls from a state. -/
def run (s : CertIDVerifier) : List Call → CertIDVerifier
  | [] => s
  | c :: cs => run (stepState s c) cs

/-- Whether a call is a `verify_tee_attestation` call that returns `true`
in state `s`. -/
def returnsTrue (s : CertIDVerifier) : Call → Bool
  | Call.verify caller d p =>
      match verify_tee_attestation caller s d p with
      | Except.ok (_, b) => b
      | Except.error _ => false
  | _ => false

/-- Number of `verify_tee_attestation` calls in a trace that return `true`
when the trace is run from state `s`. -/
def trueVerifies (s : CertIDVerifier) : List Call → Nat
  | [] => 0
  | c :: cs => (if returnsTrue s c then 1 else 0) + trueVerifies (stepState s c) cs

/-- Boolean result of a `verify_tee_attestation` call, `none` on a revert. -/
def verifyResult (caller : Address) (s : CertIDVerifier) (device_id : DeviceId)
    (payload : List Nat) : Option Bool :=
  match verify_tee_attestation caller s device_id payload with
  | Except.ok (_, b) => some b
  | Except.error _ => none

/-- Counter value after a `verify_tee_attestation` call, `none` on a revert. -/
def verifyCounterAfter (caller : Address) (s : CertIDVerifier) (device_id : DeviceId)
    (payload : List Nat) : Option U256 :=
  match verify_tee_attestation caller s device_id payload with
  | Except.ok (s', _) => some s'.total_verifications
  | Except.error _ => none

/-- Stored score of `device_id` after an `update_trust_score` call, `none` on
a revert. -/
def updateResult (caller : Address) (s : CertIDVerifier) (device_id : DeviceId)
    (new_score : U256) : Option U256 :=
  match update_trust_score caller s device_id new_score with
  | Except.ok (s', _) => some (get_device_trust s' device_id)
  | Except.error _ => none

/-- Stored owner of `device_id` after a `register_device` call, `none` on a
revert. -/
def registerResult (caller : Address) (s : CertIDVerifier) (device_id : DeviceId)
    (owner : Address) : Option Address :=
  match register_device caller s device_id owner with
  | Except.ok (s', _) => some (get_device_owner s' device_id)
  | Except.error _ => none

/-- Predicate on calls: the call is an `update_trust_score` for device `d`. -/
def updatesScoreOf (d : DeviceId) : Call → Bool
  | Call.update _ d2 _ => d2 == d
  | _ => false

/-- State after `update_trust_score(device 5, score 50)` at genesis; device 5
is never registered, so its owner is the zero address. -/
def s3 : CertIDVerifier := stepState initialState (Call.update 0 5 50)

/-- State after registering device 1 to owner 7 and scoring it 50. -/
def s2a : CertIDVerifier := run initialState [Call.register 0 1 7, Call.update 0 1 50]

/-- State after additionally verifying device 1 once (payload `[5]`): the
first, accepted submission of that payload. -/
def s2 : CertIDVerifier := stepState s2a (Call.verify 0 1 [5])

/-- State after `update_trust_score(device 0, score 1)` at genesis. -/
def s1 : CertIDVerifier := stepState initialState (Call.update 0 0 1)

/-- Trace of `2 ^ 256` identical verification calls for device 0. -/
def bigTrace : List Call := List.replicate (2 ^ 256) (Call.verify 0 0 [])

/-- C9: the result and post-state of `verify_tee_attestation` are independent
of the attestation payload — the source never reads `_attestation_data`, so
the call is literally the same function of state and device id for any two
payloads. -/
theorem verify_payload_independent (caller : Address) (s : CertIDVerifier) (d : DeviceId)
    (p1 p2 : List Nat) :
    verify_tee_attestation caller s d p1 = verify_tee_attestation caller s d p2 := rfl

/-- C10: `verify_tee_attestation` always returns normally and never modifies
`device_owners` or `device_trust_scores`; the only storage it may change is
`total_verifications`. -/
theorem verify_preserves_maps (caller : Address) (s : CertIDVerifier) (d : DeviceId)
    (p : List Nat) :
    ∃ s' b, verify_tee_attestation caller s d p = Except.ok (s', b) ∧
      s'.device_owners = s.device_owners ∧
      s'.device_trust_scores = s.device_trust_scores := by
  by_cases h : s.device_trust_scores d > 0
  · exact ⟨{ s with total_verifications := (s.total_verifications + 1) % 2 ^ 256 }, true,
      by simp [verify_tee_attestation, h], rfl, rfl⟩
  · exact ⟨s, false, by simp [verify_tee_attestation, h], rfl, rfl⟩

/-- C8: registering the same device to the same owner twice in succession
leaves the state identical to registering it once, for any pair of callers. -/
theorem register_idempotent (c1 c2 : Address) (s : CertIDVerifier) (d : DeviceId)
    (o : Address) :
    stepState (stepState s (Call.register c1 d o)) (Call.register c2 d o) =
      stepState s (Call.register c1 d o) := by
  simp only [stepState, register_device]
  congr 1
  funext x
  by_cases h : x = d <;> simp [h]

/-- Helper: a call that is not an `update_trust_score` for device `d` leaves
the stored score of `d` unchanged. -/
theorem stepState_scores_eq (s : CertIDVerifier) (c : Call) (d : DeviceId)
    (h : updatesScoreOf d c = false) :
    (stepState s c).device_trust_scores d = s.device_trust_scores d := by
  cases c with
  | register caller d2 o => simp [stepState, register_device]
  | update caller d2 v =>
      simp only [updatesScoreOf, beq_eq_false_iff_ne, ne_eq] at h
      have h' : ¬ (d = d2) := fun hh => h hh.symm
      simp [stepState, update_trust_score, h']
  | verify caller d2 p =>
      by_cases hs : s.device_trust_scores d2 > 0 <;>
        simp [stepState, verify_tee_attestation, hs]
  | getTrust _ => rfl
  | getOwner _ => rfl
  | getTotal => rfl

/-- Helper: running a trace that contains no `update_trust_score` call for
device `d` leaves the stored score of `d` unchanged. -/
theorem run_scores_eq (d : DeviceId) (trace : List Call) :
    ∀ s : CertIDVerifier, trace.all (fun c => !updatesScoreOf d c) = true →
      (run s trace).device_trust_scores d = s.device_trust_scores d := by
  induction trace with
  | nil => intro s _; rfl
  | cons c cs ih =>
      intro s hall
      simp only [List.all_cons, Bool.and_eq_true, Bool.not_eq_true'] at hall
      obtain ⟨hc, hcs⟩ := hall
      rw [run, ih _ (by simpa using hcs), stepState_scores_eq s c d hc]

/-- C7: reading the trust score of a device for which no score was ever
stored returns 0 (a normal value, not an error), and the read itself is a
no-op on the state. -/
theorem get_trust_default_zero (d : DeviceId) (trace : List Call)
    (h : trace.all (fun c => !updatesScoreOf d c) = true) :
    get_device_trust (run initialState trace) d = 0 ∧
      run (run initialState trace) [Call.getTrust d] = run initialState trace := by
  exact ⟨run_scores_eq d trace initialState h, rfl⟩

/-- Witness for C7 at a concrete trace that registers and verifies device 1
but never scores it. -/
theorem get_trust_default_zero_witness :
    ([Call.register 0 1 7, Call.verify 0 1 []].all (fun c => !updatesScoreOf 1 c) = true) ∧
      get_device_trust (run initialState [Call.register 0 1 7, Call.verify 0 1 []]) 1 = 0 :=
  ⟨by decide, (get_trust_default_zero 1 [Call.register 0 1 7, Call.verify 0 1 []] (by decide)).1⟩

/-- C3 counterexample: `update_trust_score` with the out-of-range score 101
does not fail — it returns normally and stores 101, so the stored score
invariant `0 ≤ score ≤ 100` does not hold for reachable states. -/
theorem update_invalid_score_accepted : updateResult 0 initialState 0 101 = some 101 := rfl

/-- C3 (amended): `update_trust_score` performs no range validation: for any
caller and any score value it returns normally and overwrites the stored
score with exactly that value, leaving every other storage slot unchanged. -/
theorem update_trust_score_unchecked (caller : Address) (s : CertIDVerifier) (d : DeviceId)
    (v : U256) :
    ∃ s', update_trust_score caller s d v = Except.ok (s', ()) ∧
      get_device_trust s' d = v ∧
      s'.device_owners = s.device_owners ∧
      s'.total_verifications = s.total_verifications ∧
      ∀ d2, get_device_trust s' d2 = if d2 = d then v else get_device_trust s d2 := by
  exact ⟨_, rfl, by simp [get_device_trust], rfl, rfl, fun d2 => rfl⟩

/-- C4 counterexample: whichever single address is designated as the relayer,
the distinct callers 1 and 2 cannot both be it; yet both succeed in mutating
the score ledger and the owner registry through `update_trust_score` and
`register_device` — no call aborts with `Unauthorized`. -/
theorem mutators_open_to_all_callers :
    updateResult 1 initialState 0 7 = some 7 ∧ updateResult 2 initialState 0 7 = some 7 ∧
      registerResult 1 initialState 0 9 = some 9 ∧ registerResult 2 initialState 0 9 = some 9 ∧
      (1 : Address) ≠ 2 :=
  ⟨rfl, rfl, rfl, rfl, by decide⟩

/-- C4 (amended): the pilot performs no authorization check: the behaviour of
`update_trust_score` and `register_device` is independent of the caller, and
for every caller the call returns normally and performs its write. -/
theorem mutating_calls_ignore_caller (c1 c2 : Address) (s : CertIDVerifier) (d : DeviceId)
    (v : U256) (o : Address) :
    update_trust_score c1 s d v = update_trust_score c2 s d v ∧
      register_device c1 s d o = register_device c2 s d o ∧
      updateResult c1 s d v = some v ∧
      registerResult c1 s d o = some o := by
  refine ⟨rfl, rfl, ?_, ?_⟩ <;>
    simp [updateResult, registerResult, update_trust_score, register_device,
      get_device_trust, get_device_owner]

/-- C5 counterexample: device 5 is never registered (`get_device_owner`
returns the zero address) but has been given score 50; the claim requires
`verify_tee_attestation` to return `false`, yet it returns `true` and
increments the counter — the pilot never consults the owner registry. -/
theorem unregistered_device_verifies :
    get_device_owner s3 5 = 0 ∧ get_device_trust s3 5 = 50 ∧
      verifyResult 0 s3 5 [] = some true ∧ verifyCounterAfter 0 s3 5 [] = some 1 := by
  refine ⟨rfl, rfl, rfl, ?_⟩
  simp [verifyCounterAfter, verify_tee_attestation, s3, stepState, update_trust_score,
    initialState, Nat.mod_eq_of_lt]

/-- C5 (amended): if the stored trust score of a device is zero (not greater
than zero), `verify_tee_attestation` returns `false` and causes no state
change; registration (a non-zero owner) is not checked by the pilot. -/
theorem verify_zero_score_fails (caller : Address) (s : CertIDVerifier) (d : DeviceId)
    (p : List Nat) (h : get_device_trust s d = 0) :
    verify_tee_attestation caller s d p = Except.ok (s, false) := by
  simp only [get_device_trust] at h
  simp [verify_tee_attestation, h]

/-- Witness for the amended C5 at the genesis state and device 0. -/
theorem verify_zero_score_fails_witness :
    get_device_trust initialState 0 = 0 ∧
      verify_tee_attestation 0 initialState 0 [] = Except.ok (initialState, false) :=
  ⟨rfl, verify_zero_score_fails 0 initialState 0 [] rfl⟩

/-- Modelled from the spec: the pilot source contains no payload decoder, so
the structured attestation of design section 4.4 step 2 —
`{ manufacturer_id, nonce, measurement, signature }` — is reconstructed from
the spec's words.  The spec fixes no wire format, so representative fixed
widths are used (32-byte manufacturer id, 8-byte big-endian nonce, 32-byte
measurement, 64-byte signature); all that the claims need is that some
payloads (for instance the empty one) fail to decode. -/
structure Attestation where
  manufacturer_id : List Nat
  nonce : Nat
  measurement : List Nat
  signature : List Nat

/-- Modelled from the spec: decoding of an attestation payload into the four
structured fields; fails on any payload that is not exactly 136 bytes. -/
def decode_attestation (p : List Nat) : Option Attestation :=
  if p.length = 136 ∧ p.all (fun b => b < 256) then
    some { manufacturer_id := p.take 32
           nonce := ((p.drop 32).take 8).foldl (fun a b => a * 256 + b) 0
           measurement := (p.drop 40).take 32
           signature := p.drop 72 }
  else
    none

/-- C6 counterexample: the empty payload does not decode into a structured
attestation, yet `verify_tee_attestation` does not abort with
`MalformedAttestation` — it completes normally with the ordinary policy
result (`false` here, since device 0 is unscored at genesis). -/
theorem malformed_payload_does_not_abort :
    decode_attestation [] = none ∧
      verify_tee_attestation 0 initialState 0 [] = Except.ok (initialState, false) :=
  ⟨rfl, rfl⟩

/-- C6 (amended): `verify_tee_attestation` never aborts: for every payload,
decodable or not, it returns normally — the pilot performs no payload
decoding at all (the payload is never read). -/
theorem verify_never_aborts (caller : Address) (s : CertIDVerifier) (d : DeviceId)
    (p : List Nat) :
    ∃ s' b, verify_tee_attestation caller s d p = Except.ok (s', b) := by
  by_cases h : s.device_trust_scores d > 0
  · exact ⟨{ s with total_verifications := (s.total_verifications + 1) % 2 ^ 256 }, true,
      by simp [verify_tee_attestation, h]⟩
  · exact ⟨s, false, by simp [verify_tee_attestation, h]⟩

/-- C2 counterexample: device 1 is registered with owner 7 and score 50; the
payload `[5]` is submitted and accepted (`true`, counter 1).  Resubmitting
the identical payload returns `true` again — not `false` as the claim
requires — and pushes the counter to 2. -/
theorem replay_returns_true_again :
    get_device_owner s2 1 = 7 ∧ get_device_trust s2 1 = 50 ∧
      verifyResult 0 s2a 1 [5] = some true ∧
      get_total_verifications s2 = 1 ∧
      verifyResult 0 s2 1 [5] = some true ∧
      verifyCounterAfter 0 s2 1 [5] = some 2 := by
  refine ⟨rfl, rfl, rfl, ?_, rfl, ?_⟩ <;>
    simp [get_total_verifications, verifyCounterAfter, verify_tee_attestation, s2, s2a,
      run, stepState, update_trust_score, register_device, initialState,
      Nat.mod_eq_of_lt]

/-- C2 (amended): the pilot has no replay protection: whenever a
`verify_tee_attestation` call was accepted (returned `true`), resubmitting
the identical payload for the same device is accepted again — it returns
`true` and increments the counter once more, with no state recording the
earlier submission. -/
theorem replay_not_prevented (c1 c2 : Address) (s s' : CertIDVerifier) (d : DeviceId)
    (p : List Nat) (h : verify_tee_attestation c1 s d p = Except.ok (s', true)) :
    ∃ s'', verify_tee_attestation c2 s' d p = Except.ok (s'', true) ∧
      s''.total_verifications = (s'.total_verifications + 1) % 2 ^ 256 := by
  by_cases hs : s.device_trust_scores d > 0
  · have h' : s' = { s with total_verifications := (s.total_verifications + 1) % 2 ^ 256 } := by
      simp only [verify_tee_attestation, hs, if_pos, Except.ok.injEq, Prod.mk.injEq] at h
      exact h.1.symm
    subst h'
    exact ⟨{ s with total_verifications :=
        ((s.total_verifications + 1) % 2 ^ 256 + 1) % 2 ^ 256 },
      by simp [verify_tee_attestation, hs], rfl⟩
  · simp [verify_tee_attestation, hs] at h

/-- Witness for the amended C2: the concrete accepted submission behind `s2`
can be replayed successfully. -/
theorem replay_not_prevented_witness :
    ∃ s'', verify_tee_attestation 0 s2 1 [5] = Except.ok (s'', true) ∧
      s''.total_verifications = (s2.total_verifications + 1) % 2 ^ 256 :=
  replay_not_prevented 0 0 s2a s2 1 [5] rfl

/-- Helper: the counter after one call: it becomes `(c + 1) % 2 ^ 256`
exactly when the call is a `verify_tee_attestation` call returning `true`,
and is untouched otherwise. -/
theorem stepState_total (s : CertIDVerifier) (c : Call) :
    (stepState s c).total_verifications =
      if returnsTrue s c then (s.total_verifications + 1) % 2 ^ 256
      else s.total_verifications := by
  cases c with
  | register caller d o => rfl
  | update caller d v => rfl
  | verify caller d p =>
      by_cases hs : s.device_trust_scores d > 0 <;>
        simp [stepState, returnsTrue, verify_tee_attestation, hs]
  | getTrust _ => rfl
  | getOwner _ => rfl
  | getTotal => rfl

/-- Helper: along any trace the counter accumulates the number of accepted
verifications modulo `2 ^ 256`, provided it starts in range. -/
theorem run_total_mod (trace : List Call) :
    ∀ s : CertIDVerifier, s.total_verifications < 2 ^ 256 →
      (run s trace).total_verifications =
        (s.total_verifications + trueVerifies s trace) % 2 ^ 256 := by
  induction trace with
  | nil =>
      intro s h
      simp only [run, trueVerifies, Nat.add_zero]
      exact (Nat.mod_eq_of_lt h).symm
  | cons c cs ih =>
      intro s h
      rw [run, trueVerifies]
      by_cases hc : returnsTrue s c
      · have ht : (stepState s c).total_verifications =
            (s.total_verifications + 1) % 2 ^ 256 := by
          rw [stepState_total]; simp [hc]
        have hlt : (stepState s c).total_verifications < 2 ^ 256 := by
          rw [ht]; exact Nat.mod_lt _ (by positivity)
        rw [ih _ hlt, ht, Nat.mod_add_mod, hc]
        simp [Nat.add_assoc]
      · have ht : (stepState s c).total_verifications = s.total_verifications := by
          rw [stepState_total]; simp [hc]
        rw [ih _ (ht ▸ h), ht]
        simp [hc]

/-- C1 (amended): from genesis, `get_total_verifications` equals the number
of `verify_tee_attestation` calls that returned `true`, reduced modulo
`2 ^ 256` — the counter increment wraps at the `U256` width, so exact
equality holds only below `2 ^ 256` accepted verifications. -/
theorem counter_counts_true_verifies (trace : List Call) :
    get_total_verifications (run initialState trace) =
      trueVerifies initialState trace % 2 ^ 256 := by
  have h := run_total_mod trace initialState (by positivity)
  simpa [get_total_verifications, initialState] using h

/-- Helper: a block of `n` identical verification calls against a device
with a positive score is accepted `n` times, and drives the counter to
`(c + n) % 2 ^ 256`. -/
theorem replicate_verify_all_true (c : Address) (d : DeviceId) (p : List Nat) (n : Nat) :
    ∀ s : CertIDVerifier, 0 < s.device_trust_scores d →
      trueVerifies s (List.replicate n (Call.verify c d p)) = n := by
  induction n with
  | zero => intro s _; rfl
  | succ n ih =>
      intro s hs
      rw [List.replicate_succ, trueVerifies]
      have hrt : returnsTrue s (Call.verify c d p) = true := by
        simp [returnsTrue, verify_tee_attestation, hs]
      have hsc : (stepState s (Call.verify c d p)).device_trust_scores d =
          s.device_trust_scores d := by
        simp [stepState, verify_tee_attestation, hs]
      rw [ih _ (by rw [hsc]; exact hs), hrt]
      simp [Nat.add_comm]

/-- C1 counterexample: after `2 ^ 256` accepted verifications of device 0
(score 1, starting counter 0) the wrapped counter reads 0 while the number
of calls that returned `true` is `2 ^ 256` — the claimed exact equality
fails on this trace. -/
theorem counter_wraps_at_width :
    get_total_verifications (run s1 bigTrace) ≠ trueVerifies s1 bigTrace := by
  have h1 : s1.device_trust_scores 0 = 1 := rfl
  have h0 : s1.total_verifications = 0 := rfl
  have htv : trueVerifies s1 bigTrace = 2 ^ 256 :=
    replicate_verify_all_true 0 0 [] (2 ^ 256) s1 (by rw [h1]; norm_num)
  have htot : get_total_verifications (run s1 bigTrace) = 0 := by
    have h := run_total_mod bigTrace s1 (by rw [h0]; positivity)
    rw [get_total_verifications, h, h0, htv]
    simp
  rw [htot, htv]
  positivity
